import Mathlib

/-!
Verification of the NidsDePoule ingestion pipeline and clustering engine.

The definitions below are a shallow embedding of the Python sources:
`server/core/models.py`, `server/core/stats.py`, `server/core/processor.py`,
`server/core/clustering.py`, `server/storage/file_storage.py`, and
`server/api/potholes.py`.  Machine floats are idealised as `ℚ` (exact
arithmetic) except where the source computes transcendental functions
(the Haversine distance), which is modelled over `ℝ`.  Wall-clock and
monotonic clock reads are passed in as explicit parameters; fallible
queue puts and storage writes are driven by explicit outcome oracles.
-/

namespace NidsDePoule

/-! Data model, from `server/core/models.py`. -/

structure LocationData where
  lat_microdeg : Int
  lon_microdeg : Int
  accuracy_m : Int
deriving Repr, DecidableEq

/-- Derived floating degrees, `LocationData.lat` property: microdegrees / 1,000,000. -/
def LocationData.lat (l : LocationData) : ℚ := (l.lat_microdeg : ℚ) / 1000000

/-- Derived floating degrees, `LocationData.lon` property: microdegrees / 1,000,000. -/
def LocationData.lon (l : LocationData) : ℚ := (l.lon_microdeg : ℚ) / 1000000

structure HitPatternData where
  severity : Int
  peak_vertical_mg : Int
  peak_lateral_mg : Int
  duration_ms : Int
  waveform_vertical : List Int
  waveform_lateral : List Int
  baseline_mg : Int
  peak_to_baseline_ratio : Int
deriving Repr, DecidableEq

structure HitData where
  timestamp_ms : Int
  location : LocationData
  speed_mps : ℚ
  bearing_deg : ℚ
  pattern : HitPatternData
  bearing_before_deg : ℚ
  bearing_after_deg : ℚ
deriving Repr, DecidableEq

structure ClientMessageData where
  protocol_version : Int
  device_id : String
  app_version : Int
  hit : Option HitData
  hits : List HitData
  heartbeat_timestamp_ms : Option Int
  heartbeat_pending_hits : Int
deriving Repr, DecidableEq

structure ServerHitRecordData where
  server_timestamp_ms : Int
  protocol_version : Int
  device_id : String
  app_version : Int
  hit : HitData
  record_id : Int
deriving Repr, DecidableEq

/-! Activity tracker, from `server/core/stats.py`. -/

structure DeviceActivity where
  last_seen : Int
  reporting_mode : String
  hits_sent : Nat
deriving Repr, DecidableEq

/-- Association-list model of the Python dict `ServerStats._devices`
(insertion-ordered, one entry per device id). -/
def getDevice : List (String × DeviceActivity) → String → Option DeviceActivity
  | [], _ => none
  | (k, v) :: rest, d => if k = d then some v else getDevice rest d

/-- Overwrite the entry for a device id that is already present. -/
def setDevice : List (String × DeviceActivity) → String → DeviceActivity → List (String × DeviceActivity)
  | [], _, _ => []
  | (k, v) :: rest, d, a => if k = d then (k, a) :: rest else (k, v) :: setDevice rest d a

structure ServerStats where
  hits_received : Nat
  hits_stored : Nat
  hits_rejected : Nat
  bytes_received : Nat
  bytes_stored : Nat
  batches_received : Nat
  heartbeats_received : Nat
  storage_errors : Nat
  queue_depth : Nat
  queue_max_depth : Nat
  devices : List (String × DeviceActivity)
deriving Repr, DecidableEq

/-- Freshly constructed `ServerStats` (all counters zero, no devices). -/
def emptyStats : ServerStats :=
  { hits_received := 0, hits_stored := 0, hits_rejected := 0
    bytes_received := 0, bytes_stored := 0, batches_received := 0
    heartbeats_received := 0, storage_errors := 0
    queue_depth := 0, queue_max_depth := 0, devices := [] }

/-- Embedding of `ServerStats.record_hit`; `now` stands for `time.monotonic()`. -/
def ServerStats.record_hit (s : ServerStats) (device_id : String) (size_bytes : Nat)
    (is_batch : Bool) (now : Int) : ServerStats :=
  let mode := if is_batch then "batch" else "realtime"
  let devices :=
    match getDevice s.devices device_id with
    | some dev =>
        setDevice s.devices device_id
          { last_seen := now, reporting_mode := mode, hits_sent := dev.hits_sent + 1 }
    | none =>
        s.devices ++ [(device_id, { last_seen := now, reporting_mode := mode, hits_sent := 1 })]
  { s with hits_received := s.hits_received + 1
           bytes_received := s.bytes_received + size_bytes
           devices := devices }

/-- Embedding of `ServerStats.record_batch`. -/
def ServerStats.record_batch (s : ServerStats) (device_id : String) (count : Nat)
    (size_bytes : Nat) (now : Int) : ServerStats :=
  let devices :=
    match getDevice s.devices device_id with
    | some dev =>
        setDevice s.devices device_id
          { last_seen := now, reporting_mode := "batch", hits_sent := dev.hits_sent + count }
    | none =>
        s.devices ++ [(device_id, { last_seen := now, reporting_mode := "batch", hits_sent := count })]
  { s with hits_received := s.hits_received + count
           batches_received := s.batches_received + 1
           bytes_received := s.bytes_received + size_bytes
           devices := devices }

/-- Embedding of `ServerStats.record_heartbeat`: bumps the heartbeat counter and
updates `last_seen` only when the device already has an entry. -/
def ServerStats.record_heartbeat (s : ServerStats) (device_id : String) (now : Int) : ServerStats :=
  let devices :=
    match getDevice s.devices device_id with
    | some dev => setDevice s.devices device_id { dev with last_seen := now }
    | none => s.devices
  { s with heartbeats_received := s.heartbeats_received + 1, devices := devices }

/-- Embedding of `ServerStats.record_stored`. -/
def ServerStats.record_stored (s : ServerStats) (count : Nat) (size_bytes : Nat) : ServerStats :=
  { s with hits_stored := s.hits_stored + count, bytes_stored := s.bytes_stored + size_bytes }

/-- Embedding of `ServerStats.record_rejected` (the processor always calls it
with the default `count=1`). -/
def ServerStats.record_rejected (s : ServerStats) (count : Nat) : ServerStats :=
  { s with hits_rejected := s.hits_rejected + count }

/-- Embedding of `ServerStats.record_storage_error`. -/
def ServerStats.record_storage_error (s : ServerStats) : ServerStats :=
  { s with storage_errors := s.storage_errors + 1 }

/-- Embedding of `ServerStats.update_queue_depth`. -/
def ServerStats.update_queue_depth (s : ServerStats) (depth : Nat) : ServerStats :=
  { s with queue_depth := depth
           queue_max_depth := if depth > s.queue_max_depth then depth else s.queue_max_depth }

/-! Processor, from `server/core/processor.py`. -/

def MIN_PROTOCOL_VERSION : Int := 1

/-- Mutable state of a `HitProcessor` together with the bounded queue it feeds:
`_next_record_id`, the shared `ServerStats`, and the queue contents. -/
structure ProcessorState where
  nextRecordId : Int
  stats : ServerStats
  queue : List ServerHitRecordData
deriving Repr, DecidableEq

/-- State of a freshly constructed `HitProcessor` (`self._next_record_id = 1`)
with an empty queue. -/
def processorInit (stats : ServerStats) : ProcessorState :=
  { nextRecordId := 1, stats := stats, queue := [] }

/-- The per-hit enqueue loop of `process_message`.  `oks` is the oracle of
`queue.put` outcomes, one per enqueue attempt (missing entries mean success);
a failed put increments the rejected counter and the hit is skipped.
Returns the new state and the count of hits actually enqueued. -/
def enqueueLoop (pv : Int) (dev : String) (appv : Int) (now_ms : Int) :
    List HitData → List Bool → ProcessorState → Nat → ProcessorState × Nat
  | [], _, st, stored => (st, stored)
  | h :: rest, oks, st, stored =>
      let record : ServerHitRecordData :=
        { server_timestamp_ms := now_ms, protocol_version := pv, device_id := dev
          app_version := appv, hit := h, record_id := st.nextRecordId }
      let st1 : ProcessorState := { st with nextRecordId := st.nextRecordId + 1 }
      if oks.headD true then
        enqueueLoop pv dev appv now_ms rest oks.tail
          { st1 with queue := st1.queue ++ [record] } (stored + 1)
      else
        enqueueLoop pv dev appv now_ms rest oks.tail
          { st1 with stats := st1.stats.record_rejected 1 } stored

/-- The hit set collected by `process_message`: a single hit takes priority,
else the batch when non-empty, else nothing. -/
def collectHits (msg : ClientMessageData) : List HitData :=
  match msg.hit with
  | some h => [h]
  | none => if msg.hits.isEmpty then [] else msg.hits

/-- The `is_batch` flag of `process_message`: set exactly when the hit set was
taken from the batch field. -/
def isBatchMsg (msg : ClientMessageData) : Bool :=
  match msg.hit with
  | some _ => false
  | none => !msg.hits.isEmpty

/-- Embedding of `HitProcessor.process_message`.  `now_ms` stands for
`int(time.time() * 1000)`, `now_mono` for `time.monotonic()` inside the stats
calls, `oks` for the success of each `queue.put` attempt.  Returns the
`(accepted, error, hits_stored)` triple and the updated state. -/
def process_message (st : ProcessorState) (msg : ClientMessageData) (size_bytes : Nat)
    (now_ms now_mono : Int) (oks : List Bool) : (Bool × String × Nat) × ProcessorState :=
  if msg.protocol_version < MIN_PROTOCOL_VERSION then
    let pv := msg.protocol_version
    ((false, s!"protocol_version {pv} too old, minimum is 1", 0),
      { st with stats := st.stats.record_rejected 1 })
  else if msg.device_id = "" then
    ((false, "device_id is required", 0), { st with stats := st.stats.record_rejected 1 })
  else if msg.heartbeat_timestamp_ms.isSome then
    ((true, "", 0), { st with stats := st.stats.record_heartbeat msg.device_id now_mono })
  else
    let hits : List HitData := collectHits msg
    let is_batch : Bool := isBatchMsg msg
    if hits.isEmpty then ((true, "", 0), st)
    else
      let stats1 :=
        if is_batch then st.stats.record_batch msg.device_id hits.length size_bytes now_mono
        else st.stats.record_hit msg.device_id size_bytes false now_mono
      let p := enqueueLoop msg.protocol_version msg.device_id msg.app_version now_ms
        hits oks { st with stats := stats1 } 0
      let st3 : ProcessorState :=
        { p.1 with stats := p.1.stats.update_queue_depth p.1.queue.length }
      ((true, "", p.2), st3)

/-- The record ids sitting in the queue, in enqueue order. -/
def queueIds (st : ProcessorState) : List Int := st.queue.map ServerHitRecordData.record_id

/-- The gap-free id interval `[k, k + n)`. -/
def rangeInt (k : Int) (n : Nat) : List Int := (List.range n).map (fun i : Nat => k + (i : Int))

/-- Sequential processing of several client messages against one processor. -/
structure MessageInput where
  msg : ClientMessageData
  size_bytes : Nat
  now_ms : Int
  now_mono : Int
  oks : List Bool

/-- Run `process_message` over a list of inputs, threading the state. -/
def runMessages (st : ProcessorState) : List MessageInput → ProcessorState
  | [] => st
  | i :: rest => runMessages (process_message st i.msg i.size_bytes i.now_ms i.now_mono i.oks).2 rest

/-! Durable store, from `server/storage/file_storage.py`. -/

/-- Calendar-hour partition key of a server timestamp (the `YYYY/MM/DD/HH`
UTC directory of `_hour_dir`, collapsed to the hour index since the epoch). -/
def hourKey (timestamp_ms : Int) : Int := timestamp_ms / 3600000

/-- Round a rational to 1 decimal place (Python `round(x, 1)` idealised with
round-half-up). -/
def round1 (q : ℚ) : ℚ := ((round (q * 10) : ℤ) : ℚ) / 10

/-- Round a rational to 2 decimal places (Python `round(x, 2)` idealised with
round-half-up). -/
def round2 (q : ℚ) : ℚ := ((round (q * 100) : ℤ) : ℚ) / 100

/-- One line of the secondary `hits.jsonl` index (`ts_ms` is the hit timestamp
from which the ISO string is formatted). -/
structure JsonlEntry where
  id : Int
  ts_ms : Int
  device : String
  lat : ℚ
  lon : ℚ
  severity : Int
  peak_mg : Int
  speed : ℚ
deriving Repr, DecidableEq

/-- Embedding of `FileHitStorage._to_jsonl_entry`.  Note the source computes
`record.hit.location.lat / 1_000_000` where `.lat` is already the derived
floating degrees property (the `isinstance(..., int)` guard is always true
because `lat_microdeg` is an int), so the stored value is microdegrees / 10^12. -/
def FileHitStorage.to_jsonl_entry (record : ServerHitRecordData) : JsonlEntry :=
  { id := record.record_id
    ts_ms := record.hit.timestamp_ms
    device := record.device_id.take 8
    lat := record.hit.location.lat / 1000000
    lon := record.hit.location.lon / 1000000
    severity := record.hit.pattern.severity
    peak_mg := record.hit.pattern.peak_vertical_mg
    speed := round1 record.hit.speed_mps }

/-- On-disk state: the hour-partitioned primary log (`hits.binpb`, one
serialized record per append) and the hour-partitioned secondary index
(`hits.jsonl`, one line per append). -/
structure StorageState where
  binpb : List (Int × ServerHitRecordData)
  jsonl : List (Int × JsonlEntry)
deriving Repr, DecidableEq

/-- Embedding of `FileHitStorage.store`: appends one serialized record to the
primary log of the record's hour partition and one line to the secondary index
of the same partition. -/
def FileHitStorage.store (s : StorageState) (record : ServerHitRecordData) : StorageState :=
  let k := hourKey record.server_timestamp_ms
  { binpb := s.binpb ++ [(k, record)]
    jsonl := s.jsonl ++ [(k, FileHitStorage.to_jsonl_entry record)] }

/-- Modelled from the spec: `FileHitStorage.delete_hits` is absent from the
provided sources (only its caller in `server/api/potholes.py` appears); per
spec §4.3, "`delete(record_ids: set) -> count_deleted` removes matching records
and returns how many were found", with the delete path also compacting the
partition files. -/
def FileHitStorage.delete_hits (s : StorageState) (record_ids : List Int) : StorageState × Nat :=
  let kept := s.binpb.filter (fun r => r.2.record_id ∉ record_ids)
  let keptIdx := s.jsonl.filter (fun e => e.2.id ∉ record_ids)
  ({ binpb := kept, jsonl := keptIdx }, s.binpb.length - kept.length)

/-- Embedding of the `DELETE /api/v1/hits` handler `delete_hits` in
`server/api/potholes.py`: an empty id set returns 0 deleted without touching
storage; otherwise the storage delete is invoked (an id `set` is modelled as
the list of ids with membership semantics). -/
def deleteHitsEndpoint (s : StorageState) (record_ids : List Int) : StorageState × Nat :=
  if record_ids = [] then (s, 0)
  else FileHitStorage.delete_hits s record_ids

/-! Storage consumer loop, from `HitProcessor.run_storage_consumer`. -/

/-- One iteration of `run_storage_consumer` after dequeuing `record`: `ok`
tells whether `storage.store` raised (failure leaves the modelled store
unchanged), `qsize` is the queue depth read after a successful store. -/
def consumeOne (s : StorageState × ServerStats) (record : ServerHitRecordData)
    (ok : Bool) (qsize : Nat) : StorageState × ServerStats :=
  if ok then (FileHitStorage.store s.1 record, (s.2.record_stored 1 0).update_queue_depth qsize)
  else (s.1, s.2.record_storage_error)

/-- Finite-trace embedding of the (endless) consumer loop: process each
dequeued record with its store outcome in order. -/
def run_storage_consumer (s : StorageState × ServerStats) :
    List (ServerHitRecordData × Bool × Nat) → StorageState × ServerStats
  | [] => s
  | (r, ok, q) :: rest => run_storage_consumer (consumeOne s r ok q) rest

/-! Clustering engine, from `server/core/clustering.py`. -/

/-- Maximum distance (meters) for two hits to be the same pothole. -/
def CLUSTER_RADIUS_M : ℝ := 15

/-- Mean Earth radius in meters (`_EARTH_R`). -/
def EARTH_R : ℝ := 6371000

/-- Embedding of `_haversine_m` over `ℝ`: great-circle distance in meters
(`math.radians x = x * π / 180`). -/
noncomputable def haversine_m (lat1 lon1 lat2 lon2 : ℝ) : ℝ :=
  let rlat1 := lat1 * Real.pi / 180
  let rlat2 := lat2 * Real.pi / 180
  let dlat := (lat2 - lat1) * Real.pi / 180
  let dlon := (lon2 - lon1) * Real.pi / 180
  let a := Real.sin (dlat / 2) ^ 2 + Real.cos rlat1 * Real.cos rlat2 * Real.sin (dlon / 2) ^ 2
  2 * EARTH_R * Real.arcsin (Real.sqrt a)

structure PotholeCluster where
  lat : ℚ
  lon : ℚ
  hit_count : Nat
  severity_sum : Int
  severity_max : Int
  peak_mg_max : Int
  first_seen_ms : Int
  last_seen_ms : Int
  devices : List String
  manual_reports : Nat
  sources : List (String × Nat)
  lat_sum : ℚ
  lon_sum : ℚ
deriving Repr, DecidableEq

/-- A freshly constructed `PotholeCluster()` (all dataclass defaults). -/
def emptyCluster : PotholeCluster :=
  { lat := 0, lon := 0, hit_count := 0, severity_sum := 0, severity_max := 0
    peak_mg_max := 0, first_seen_ms := 0, last_seen_ms := 0, devices := []
    manual_reports := 0, sources := [], lat_sum := 0, lon_sum := 0 }

/-- Association-list model of `self.sources[source] = self.sources.get(source, 0) + 1`. -/
def bumpSource : List (String × Nat) → String → List (String × Nat)
  | [], s => [(s, 1)]
  | (k, n) :: rest, s => if k = s then (k, n + 1) :: rest else (k, n) :: bumpSource rest s

/-- Embedding of `PotholeCluster.add_hit` (the Python `set` of device ids is a
duplicate-free insertion-ordered list). -/
def PotholeCluster.add_hit (c : PotholeCluster) (lat lon : ℚ) (severity peak_mg : Int)
    (timestamp_ms : Int) (device_id : String) (source : String) : PotholeCluster :=
  let hit_count := c.hit_count + 1
  let lat_sum := c.lat_sum + lat
  let lon_sum := c.lon_sum + lon
  { lat := lat_sum / (hit_count : ℚ)
    lon := lon_sum / (hit_count : ℚ)
    hit_count := hit_count
    severity_sum := c.severity_sum + severity
    severity_max := max c.severity_max severity
    peak_mg_max := max c.peak_mg_max peak_mg
    first_seen_ms :=
      if c.first_seen_ms = 0 ∨ timestamp_ms < c.first_seen_ms then timestamp_ms else c.first_seen_ms
    last_seen_ms := if timestamp_ms > c.last_seen_ms then timestamp_ms else c.last_seen_ms
    devices := if device_id ∈ c.devices then c.devices else c.devices ++ [device_id]
    manual_reports := if source ≠ "auto" then c.manual_reports + 1 else c.manual_reports
    sources := bumpSource c.sources source
    lat_sum := lat_sum
    lon_sum := lon_sum }

/-- Embedding of the `PotholeCluster.severity_avg` property. -/
def PotholeCluster.severity_avg (c : PotholeCluster) : ℚ :=
  if c.hit_count = 0 then 0 else (c.severity_sum : ℚ) / (c.hit_count : ℚ)

/-- Embedding of the `PotholeCluster.confidence` property
(`0.5 = 1/2`, `0.3 = 3/10`, `0.2 = 1/5` as exact rationals). -/
def PotholeCluster.confidence (c : PotholeCluster) : ℚ :=
  let device_factor := min ((c.devices.length : ℚ) / 3) 1
  let count_factor := min ((c.hit_count : ℚ) / 5) 1
  let manual_factor := min ((c.manual_reports : ℚ) / 2) 1
  let base := device_factor * (1 / 2) + count_factor * (3 / 10) + manual_factor * (1 / 5)
  round2 (min base 1)

/-- The arguments of one `add_hit` call, for stating the centroid invariant
over an arbitrary call sequence. -/
structure AddCall where
  lat : ℚ
  lon : ℚ
  severity : Int
  peak_mg : Int
  timestamp_ms : Int
  device_id : String
  source : String
deriving Repr, DecidableEq

/-- Apply a sequence of `add_hit` calls to a cluster, in order. -/
def applyAdds (c : PotholeCluster) : List AddCall → PotholeCluster
  | [] => c
  | a :: rest =>
      applyAdds (c.add_hit a.lat a.lon a.severity a.peak_mg a.timestamp_ms a.device_id a.source) rest

/-- The fields of a raw stored-hit dict that `cluster_hits` reads
(`record["hit"]["location"]`, `record["hit"]["pattern"]`, top-level
`device_id` and `source`), with the `.get` defaults applied at the boundary. -/
structure RawRecord where
  lat_microdeg : Int
  lon_microdeg : Int
  severity : Int
  peak_vertical_mg : Int
  timestamp_ms : Int
  device_id : String
  source : String
deriving Repr, DecidableEq

/-- Distance from a decoded hit position to a cluster centroid, as computed in
the nearest-cluster scan: `_haversine_m(lat, lon, c.lat, c.lon)`. -/
noncomputable def hitDist (lat lon : ℚ) (c : PotholeCluster) : ℝ :=
  haversine_m (lat : ℝ) (lon : ℝ) (c.lat : ℝ) (c.lon : ℝ)

/-- The `for c in clusters` scan of `cluster_hits`: track the best (strictly
smaller) distance seen so far and the index of the cluster attaining it,
starting from `best_dist = radius + 1`, `best_cluster = None`. -/
noncomputable def scanBest (lat lon : ℚ) :
    List PotholeCluster → Nat → Option Nat → ℝ → Option Nat × ℝ
  | [], _, best, bestDist => (best, bestDist)
  | c :: rest, i, best, bestDist =>
      let d := hitDist lat lon c
      if d < bestDist then scanBest lat lon rest (i + 1) (some i) d
      else scanBest lat lon rest (i + 1) best bestDist

/-- The body of the `for record in raw_hits` loop of `cluster_hits`: skip the
zero/zero sentinel, else merge into the best cluster when one was found within
the radius, else append a new singleton cluster. -/
noncomputable def clusterStep (radius : ℝ) (clusters : List PotholeCluster)
    (record : RawRecord) : List PotholeCluster :=
  if record.lat_microdeg = 0 ∧ record.lon_microdeg = 0 then clusters
  else
    let lat : ℚ := (record.lat_microdeg : ℚ) / 1000000
    let lon : ℚ := (record.lon_microdeg : ℚ) / 1000000
    let best := scanBest lat lon clusters 0 none (radius + 1)
    let fresh := emptyCluster.add_hit lat lon record.severity record.peak_vertical_mg
      record.timestamp_ms record.device_id record.source
    match best.1 with
    | some i =>
        if best.2 ≤ radius then
          clusters.set i ((clusters.getD i emptyCluster).add_hit lat lon record.severity
            record.peak_vertical_mg record.timestamp_ms record.device_id record.source)
        else clusters ++ [fresh]
    | none => clusters ++ [fresh]

/-- Embedding of `cluster_hits` at the default radius `CLUSTER_RADIUS_M`. -/
noncomputable def cluster_hits (raw_hits : List RawRecord) : List PotholeCluster :=
  List.foldl (clusterStep CLUSTER_RADIUS_M) [] raw_hits

/-! Concrete test fixtures used by the witness and counterexample theorems. -/

/-- An impact pattern fixture. -/
def patA : HitPatternData :=
  { severity := 2, peak_vertical_mg := 3000, peak_lateral_mg := 100, duration_ms := 50
    waveform_vertical := [], waveform_lateral := [], baseline_mg := 1000
    peak_to_baseline_ratio := 3 }

/-- A hit fixture at 45°N, 4°E. -/
def hitA : HitData :=
  { timestamp_ms := 1, location := { lat_microdeg := 45000000, lon_microdeg := 4000000, accuracy_m := 5 }
    speed_mps := 10, bearing_deg := 90, pattern := patA
    bearing_before_deg := 88, bearing_after_deg := 92 }

/-- A message with a protocol version below the minimum. -/
def msgBadVersion : ClientMessageData :=
  { protocol_version := 0, device_id := "d", app_version := 1, hit := none, hits := []
    heartbeat_timestamp_ms := none, heartbeat_pending_hits := 0 }

/-- A valid batch message carrying three hits. -/
def msgBatch3 : ClientMessageData :=
  { protocol_version := 1, device_id := "dev-1", app_version := 2, hit := none
    hits := [hitA, hitA, hitA], heartbeat_timestamp_ms := none, heartbeat_pending_hits := 0 }

/-- A valid single-hit message. -/
def msgSingle : ClientMessageData :=
  { protocol_version := 1, device_id := "dev-2", app_version := 2, hit := some hitA
    hits := [], heartbeat_timestamp_ms := none, heartbeat_pending_hits := 0 }

/-- A valid heartbeat message from device `"d"`. -/
def msgHeartbeatD : ClientMessageData :=
  { protocol_version := 1, device_id := "d", app_version := 1, hit := none, hits := []
    heartbeat_timestamp_ms := some 5, heartbeat_pending_hits := 0 }

/-- Stats fixture in which device `"d"` already has an activity entry. -/
def statsWithDev : ServerStats :=
  { emptyStats with devices := [("d", { last_seen := 1, reporting_mode := "realtime", hits_sent := 3 })] }

/-- A two-message all-successful input sequence. -/
def inputsC3 : List MessageInput :=
  [ { msg := msgSingle, size_bytes := 5, now_ms := 100, now_mono := 0, oks := [] }
  , { msg := msgBatch3, size_bytes := 9, now_ms := 200, now_mono := 1, oks := [true, true, true] } ]

/-- A stored record fixture. -/
def recordA : ServerHitRecordData :=
  { server_timestamp_ms := 1700000000000, protocol_version := 1
    device_id := "devA-long-id", app_version := 2, hit := hitA, record_id := 1 }

/-- A second stored record fixture. -/
def recordB : ServerHitRecordData :=
  { server_timestamp_ms := 1700000000500, protocol_version := 1
    device_id := "devB-long-id", app_version := 2, hit := hitA, record_id := 2 }

/-- Empty storage. -/
def emptyStorage : StorageState := { binpb := [], jsonl := [] }

/-- Storage holding record ids 1 and 2. -/
def storage2 : StorageState :=
  { binpb := [(hourKey 1700000000000, recordA), (hourKey 1700000000500, recordB)]
    jsonl := [(hourKey 1700000000000, FileHitStorage.to_jsonl_entry recordA),
              (hourKey 1700000000500, FileHitStorage.to_jsonl_entry recordB)] }

/-- Cluster fixture with 3 distinct devices, 5 hits, 2 manual reports. -/
def clusterC7 : PotholeCluster :=
  { emptyCluster with devices := ["a", "b", "c"], hit_count := 5, manual_reports := 2 }

/-- Raw hit at latitude 1.000000°, longitude 0 (enters clustering first). -/
def recA : RawRecord :=
  { lat_microdeg := 1000000, lon_microdeg := 0, severity := 2, peak_vertical_mg := 3000
    timestamp_ms := 100, device_id := "devA", source := "auto" }

/-- Raw hit 90 microdegrees of latitude (≈ 10.0 m) north of `recA`. -/
def recB10 : RawRecord :=
  { lat_microdeg := 1000090, lon_microdeg := 0, severity := 3, peak_vertical_mg := 4000
    timestamp_ms := 200, device_id := "devB", source := "auto" }

/-- Raw hit 180 microdegrees of latitude (≈ 20.0 m) north of `recA`. -/
def recB20 : RawRecord :=
  { lat_microdeg := 1000180, lon_microdeg := 0, severity := 3, peak_vertical_mg := 4000
    timestamp_ms := 200, device_id := "devB", source := "auto" }

/-- A raw record at the zero/zero sentinel location. -/
def recSentinel : RawRecord :=
  { lat_microdeg := 0, lon_microdeg := 0, severity := 1, peak_vertical_mg := 100
    timestamp_ms := 50, device_id := "devS", source := "auto" }

/-- The singleton cluster created by the first non-sentinel record `recA`. -/
def c1A : PotholeCluster :=
  emptyCluster.add_hit (((1000000 : Int) : ℚ) / 1000000) (((0 : Int) : ℚ) / 1000000)
    2 3000 100 "devA" "auto"

/-! Supporting lemmas. -/

lemma length_filter_add_length_filter_not {α : Type} (l : List α) (p : α → Bool) :
    (l.filter p).length + (l.filter (fun a => !(p a))).length = l.length := by
  induction l with
  | nil => simp
  | cons a rest ih =>
      by_cases h : p a = true
      · simp [List.filter, h]
        omega
      · simp only [Bool.not_eq_true] at h
        simp [List.filter, h]
        omega

lemma rangeInt_cons (k : Int) (n : Nat) : rangeInt k (n + 1) = k :: rangeInt (k + 1) n := by
  unfold rangeInt
  rw [List.range_succ_eq_map, List.map_cons, List.map_map]
  congr 1
  · simp
  · apply List.map_congr_left
    intro i _
    simp only [Function.comp_apply]
    push_cast
    ring

lemma rangeInt_append (k : Int) (m n : Nat) :
    rangeInt k m ++ rangeInt (k + (m : Int)) n = rangeInt k (m + n) := by
  induction m generalizing k with
  | zero => simp [rangeInt]
  | succ m ih =>
      rw [rangeInt_cons, show m + 1 + n = (m + n) + 1 from by omega, rangeInt_cons,
        List.cons_append]
      congr 1
      rw [show k + ((m + 1 : Nat) : Int) = (k + 1) + (m : Int) by push_cast; ring]
      exact ih (k + 1)

lemma rangeInt_length (k : Int) (n : Nat) : (rangeInt k n).length = n := by
  simp [rangeInt]

lemma enqueueLoop_cons_true (pv : Int) (dev : String) (appv : Int) (nms : Int)
    (h : HitData) (rest : List HitData) (oks : List Bool) (st : ProcessorState) (stored : Nat)
    (hok : oks.headD true = true) :
    enqueueLoop pv dev appv nms (h :: rest) oks st stored =
      enqueueLoop pv dev appv nms rest oks.tail
        { nextRecordId := st.nextRecordId + 1, stats := st.stats,
          queue := st.queue ++ [⟨nms, pv, dev, appv, h, st.nextRecordId⟩] } (stored + 1) := by
  simp only [enqueueLoop]
  rw [if_pos hok]

lemma enqueueLoop_cons_false (pv : Int) (dev : String) (appv : Int) (nms : Int)
    (h : HitData) (rest : List HitData) (oks : List Bool) (st : ProcessorState) (stored : Nat)
    (hok : ¬oks.headD true = true) :
    enqueueLoop pv dev appv nms (h :: rest) oks st stored =
      enqueueLoop pv dev appv nms rest oks.tail
        { nextRecordId := st.nextRecordId + 1, stats := st.stats.record_rejected 1,
          queue := st.queue } stored := by
  simp only [enqueueLoop]
  rw [if_neg hok]

lemma enqueueLoop_spec (pv : Int) (dev : String) (appv : Int) (nms : Int) :
    ∀ (hits : List HitData) (oks : List Bool) (st : ProcessorState) (stored : Nat),
    ∃ newRecs : List ServerHitRecordData,
      (enqueueLoop pv dev appv nms hits oks st stored).1.queue = st.queue ++ newRecs ∧
      (enqueueLoop pv dev appv nms hits oks st stored).1.nextRecordId =
        st.nextRecordId + hits.length ∧
      (enqueueLoop pv dev appv nms hits oks st stored).2 = stored + newRecs.length ∧
      (enqueueLoop pv dev appv nms hits oks st stored).1.stats.hits_rejected + newRecs.length =
        st.stats.hits_rejected + hits.length ∧
      List.Chain' (· < ·) (newRecs.map ServerHitRecordData.record_id) ∧
      (∀ id ∈ newRecs.map ServerHitRecordData.record_id,
        st.nextRecordId ≤ id ∧ id < st.nextRecordId + hits.length) ∧
      ((∀ b ∈ oks, b = true) →
        newRecs.map ServerHitRecordData.record_id = rangeInt st.nextRecordId hits.length) := by
  intro hits
  induction hits with
  | nil =>
      intro oks st stored
      exact ⟨[], by simp [enqueueLoop, rangeInt]⟩
  | cons h rest ih =>
      intro oks st stored
      by_cases hok : oks.headD true = true
      · rw [enqueueLoop_cons_true pv dev appv nms h rest oks st stored hok]
        obtain ⟨newRecs', hq, hnext, hstored, hrej, hchain, hbounds, hall⟩ :=
          ih oks.tail
            { nextRecordId := st.nextRecordId + 1, stats := st.stats,
              queue := st.queue ++ [⟨nms, pv, dev, appv, h, st.nextRecordId⟩] } (stored + 1)
        dsimp only at hq hnext hstored hrej hbounds hall
        refine ⟨⟨nms, pv, dev, appv, h, st.nextRecordId⟩ :: newRecs', ?_, ?_, ?_, ?_, ?_, ?_, ?_⟩
        · rw [hq]
          simp
        · rw [hnext]
          simp only [List.length_cons]
          push_cast
          ring
        · rw [hstored]
          simp only [List.length_cons]
          omega
        · simp only [List.length_cons]
          omega
        · rw [List.map_cons, List.chain'_cons']
          refine ⟨?_, hchain⟩
          intro y hy
          rcases newRecs' with _ | ⟨r2, rest2⟩
          · simp at hy
          · simp only [List.map_cons, List.head?_cons, Option.mem_def, Option.some.injEq] at hy
            subst hy
            have h2 := hbounds r2.record_id (by simp)
            dsimp only
            omega
        · intro id hid
          simp only [List.map_cons, List.mem_cons] at hid
          rcases hid with rfl | hid
          · simp only [List.length_cons]
            push_cast
            omega
          · have := hbounds id hid
            simp only [List.length_cons]
            push_cast at this ⊢
            omega
        · intro hoks
          rw [List.map_cons, List.length_cons, rangeInt_cons]
          congr 1
          exact hall (fun b hb => hoks b (List.mem_of_mem_tail hb))
      · rw [enqueueLoop_cons_false pv dev appv nms h rest oks st stored hok]
        obtain ⟨newRecs', hq, hnext, hstored, hrej, hchain, hbounds, hall⟩ :=
          ih oks.tail
            { nextRecordId := st.nextRecordId + 1, stats := st.stats.record_rejected 1,
              queue := st.queue } stored
        dsimp only at hq hnext hstored hrej hbounds hall
        refine ⟨newRecs', hq, ?_, hstored, ?_, hchain, ?_, ?_⟩
        · rw [hnext]
          simp only [List.length_cons]
          push_cast
          ring
        · have hr1 : (st.stats.record_rejected 1).hits_rejected = st.stats.hits_rejected + 1 := rfl
          simp only [List.length_cons]
          omega
        · intro id hid
          have := hbounds id hid
          simp only [List.length_cons]
          push_cast at this ⊢
          omega
        · intro hoks
          exfalso
          rcases oks with _ | ⟨b, bs⟩
          · simp at hok
          · have := hoks b (by simp)
            simp [this] at hok

lemma process_message_hits_eq (st : ProcessorState) (msg : ClientMessageData) (sz : Nat)
    (nms nmono : Int) (oks : List Bool)
    (h1 : ¬msg.protocol_version < MIN_PROTOCOL_VERSION) (h2 : ¬msg.device_id = "")
    (h3 : msg.heartbeat_timestamp_ms = none) (h4 : collectHits msg ≠ []) :
    process_message st msg sz nms nmono oks =
      ((true, "",
        (enqueueLoop msg.protocol_version msg.device_id msg.app_version nms
          (collectHits msg) oks
          { st with stats :=
              if isBatchMsg msg then
                st.stats.record_batch msg.device_id (collectHits msg).length sz nmono
              else st.stats.record_hit msg.device_id sz false nmono } 0).2),
       { (enqueueLoop msg.protocol_version msg.device_id msg.app_version nms
            (collectHits msg) oks
            { st with stats :=
                if isBatchMsg msg then
                  st.stats.record_batch msg.device_id (collectHits msg).length sz nmono
                else st.stats.record_hit msg.device_id sz false nmono } 0).1 with
          stats :=
            (enqueueLoop msg.protocol_version msg.device_id msg.app_version nms
              (collectHits msg) oks
              { st with stats :=
                  if isBatchMsg msg then
                    st.stats.record_batch msg.device_id (collectHits msg).length sz nmono
                  else st.stats.record_hit msg.device_id sz false nmono } 0).1.stats.update_queue_depth
              (enqueueLoop msg.protocol_version msg.device_id msg.app_version nms
                (collectHits msg) oks
                { st with stats :=
                    if isBatchMsg msg then
                      st.stats.record_batch msg.device_id (collectHits msg).length sz nmono
                    else st.stats.record_hit msg.device_id sz false nmono } 0).1.queue.length }) := by
  unfold process_message
  rw [if_neg h1, if_neg h2]
  rw [if_neg (show ¬msg.heartbeat_timestamp_ms.isSome = true by simp [h3])]
  dsimp only
  rw [if_neg (show ¬(collectHits msg).isEmpty = true by simpa using h4)]

lemma process_message_ids (st : ProcessorState) (msg : ClientMessageData) (sz : Nat)
    (nms nmono : Int) (oks : List Bool) :
    ∃ newRecs : List ServerHitRecordData,
      (process_message st msg sz nms nmono oks).2.queue = st.queue ++ newRecs ∧
      st.nextRecordId ≤ (process_message st msg sz nms nmono oks).2.nextRecordId ∧
      List.Chain' (· < ·) (newRecs.map ServerHitRecordData.record_id) ∧
      (∀ id ∈ newRecs.map ServerHitRecordData.record_id,
        st.nextRecordId ≤ id ∧ id < (process_message st msg sz nms nmono oks).2.nextRecordId) ∧
      ((∀ b ∈ oks, b = true) →
        newRecs.map ServerHitRecordData.record_id = rangeInt st.nextRecordId newRecs.length ∧
        (process_message st msg sz nms nmono oks).2.nextRecordId =
          st.nextRecordId + newRecs.length) := by
  by_cases h1 : msg.protocol_version < MIN_PROTOCOL_VERSION
  · refine ⟨[], ?_⟩
    simp [process_message, h1, rangeInt]
  by_cases h2 : msg.device_id = ""
  · refine ⟨[], ?_⟩
    simp [process_message, h1, h2, rangeInt]
  rcases h3 : msg.heartbeat_timestamp_ms with _ | t
  · by_cases h4 : collectHits msg = []
    · refine ⟨[], ?_⟩
      unfold process_message
      rw [if_neg h1, if_neg h2]
      rw [if_neg (show ¬msg.heartbeat_timestamp_ms.isSome = true by simp [h3])]
      dsimp only
      rw [if_pos (show (collectHits msg).isEmpty = true by simpa using h4)]
      simp [rangeInt]
    · rw [process_message_hits_eq st msg sz nms nmono oks h1 h2 h3 h4]
      obtain ⟨newRecs, hq, hnext, _, _, hchain, hbounds, hall⟩ :=
        enqueueLoop_spec msg.protocol_version msg.device_id msg.app_version nms
          (collectHits msg) oks
          { st with stats :=
              if isBatchMsg msg then
                st.stats.record_batch msg.device_id (collectHits msg).length sz nmono
              else st.stats.record_hit msg.device_id sz false nmono } 0
      dsimp only at hq hnext hchain hbounds hall
      refine ⟨newRecs, hq, ?_, hchain, ?_, ?_⟩
      · rw [hnext]
        omega
      · intro id hid
        have := hbounds id hid
        rw [hnext]
        exact this
      · intro hoks
        have hx := hall hoks
        have hlen : newRecs.length = (collectHits msg).length := by
          have := congrArg List.length hx
          simpa [rangeInt_length] using this
        refine ⟨?_, ?_⟩
        · rw [hx, hlen]
        · rw [hnext, hlen]
  · refine ⟨[], ?_⟩
    unfold process_message
    rw [if_neg h1, if_neg h2]
    rw [if_pos (show msg.heartbeat_timestamp_ms.isSome = true by simp [h3])]
    simp [rangeInt]

lemma runMessages_chain (inputs : List MessageInput) : ∀ st : ProcessorState,
    List.Chain' (· < ·) (queueIds st) →
    (∀ id ∈ queueIds st, id < st.nextRecordId) →
    List.Chain' (· < ·) (queueIds (runMessages st inputs)) ∧
    (∀ id ∈ queueIds (runMessages st inputs),
      id < (runMessages st inputs).nextRecordId) := by
  induction inputs with
  | nil =>
      intro st hchain hlt
      exact ⟨hchain, hlt⟩
  | cons i rest ih =>
      intro st hchain hlt
      obtain ⟨newRecs, hq, hmono, hchain2, hbounds, _⟩ :=
        process_message_ids st i.msg i.size_bytes i.now_ms i.now_mono i.oks
      set st1 := (process_message st i.msg i.size_bytes i.now_ms i.now_mono i.oks).2 with hst1
      have hids : queueIds st1 = queueIds st ++ newRecs.map ServerHitRecordData.record_id := by
        unfold queueIds
        rw [hq, List.map_append]
      have hchain1 : List.Chain' (· < ·) (queueIds st1) := by
        rw [hids, List.chain'_append]
        refine ⟨hchain, hchain2, ?_⟩
        intro x hx y hy
        have hxmem : x ∈ queueIds st := by
          obtain ⟨hne, rfl⟩ := List.mem_getLast?_eq_getLast hx
          exact List.getLast_mem hne
        have hymem : y ∈ newRecs.map ServerHitRecordData.record_id := List.mem_of_mem_head? hy
        have h1 := hlt x hxmem
        have h2 := (hbounds y hymem).1
        omega
      have hlt1 : ∀ id ∈ queueIds st1, id < st1.nextRecordId := by
        intro id hid
        rw [hids] at hid
        rcases List.mem_append.mp hid with hid | hid
        · have := hlt id hid
          omega
        · exact (hbounds id hid).2
      have := ih st1 hchain1 hlt1
      simpa [runMessages] using this

lemma runMessages_exact (inputs : List MessageInput)
    (hoks : ∀ i ∈ inputs, ∀ b ∈ i.oks, b = true) : ∀ st : ProcessorState,
    queueIds st = rangeInt 1 st.queue.length →
    st.nextRecordId = 1 + st.queue.length →
    queueIds (runMessages st inputs) =
      rangeInt 1 (runMessages st inputs).queue.length ∧
    (runMessages st inputs).nextRecordId = 1 + (runMessages st inputs).queue.length := by
  induction inputs with
  | nil =>
      intro st hq hn
      exact ⟨hq, hn⟩
  | cons i rest ih =>
      intro st hq hn
      obtain ⟨newRecs, hqueue, _, _, _, hall⟩ :=
        process_message_ids st i.msg i.size_bytes i.now_ms i.now_mono i.oks
      obtain ⟨hmap, hnext⟩ := hall (hoks i (by simp))
      set st1 := (process_message st i.msg i.size_bytes i.now_ms i.now_mono i.oks).2 with hst1
      have hids : queueIds st1 = queueIds st ++ newRecs.map ServerHitRecordData.record_id := by
        unfold queueIds
        rw [hqueue, List.map_append]
      have hlen1 : st1.queue.length = st.queue.length + newRecs.length := by
        rw [hqueue, List.length_append]
      have hq1 : queueIds st1 = rangeInt 1 st1.queue.length := by
        rw [hids, hq, hmap, hlen1, hn]
        rw [show (1 : Int) + st.queue.length = 1 + (st.queue.length : Int) from rfl]
        exact rangeInt_append 1 st.queue.length newRecs.length
      have hn1 : st1.nextRecordId = 1 + st1.queue.length := by
        rw [hnext, hn, hlen1]
        push_cast
        ring
      have := ih (fun j hj => hoks j (by simp [hj])) st1 hq1 hn1
      simpa [runMessages] using this

lemma applyAdds_sums (l : List AddCall) (c : PotholeCluster) :
    (applyAdds c l).lat_sum = c.lat_sum + (l.map AddCall.lat).sum ∧
    (applyAdds c l).lon_sum = c.lon_sum + (l.map AddCall.lon).sum ∧
    (applyAdds c l).hit_count = c.hit_count + l.length ∧
    (l ≠ [] →
      (applyAdds c l).lat = (applyAdds c l).lat_sum / ((applyAdds c l).hit_count : ℚ) ∧
      (applyAdds c l).lon = (applyAdds c l).lon_sum / ((applyAdds c l).hit_count : ℚ)) := by
  induction l generalizing c with
  | nil => simp [applyAdds]
  | cons a rest ih =>
      have h := ih (c.add_hit a.lat a.lon a.severity a.peak_mg a.timestamp_ms a.device_id a.source)
      refine ⟨?_, ?_, ?_, ?_⟩
      · rw [show applyAdds c (a :: rest) =
          applyAdds (c.add_hit a.lat a.lon a.severity a.peak_mg a.timestamp_ms a.device_id a.source) rest from rfl]
        rw [h.1]
        simp [PotholeCluster.add_hit]
        ring
      · rw [show applyAdds c (a :: rest) =
          applyAdds (c.add_hit a.lat a.lon a.severity a.peak_mg a.timestamp_ms a.device_id a.source) rest from rfl]
        rw [h.2.1]
        simp [PotholeCluster.add_hit]
        ring
      · rw [show applyAdds c (a :: rest) =
          applyAdds (c.add_hit a.lat a.lon a.severity a.peak_mg a.timestamp_ms a.device_id a.source) rest from rfl]
        rw [h.2.2.1]
        simp [PotholeCluster.add_hit]
        omega
      · intro _
        rcases rest with _ | ⟨b, rest2⟩
        · simp [applyAdds, PotholeCluster.add_hit]
        · exact h.2.2.2 (by simp)

/-! Claim theorems. -/

/-- C1: `process_message` returns `accepted = false` with `stored_count = 0`
exactly when the protocol version is below the minimum supported or the device
id is empty; each such rejection increments the rejected counter by exactly
one, and every message passing both checks returns `accepted = true`. -/
theorem C1_validation_gate (st : ProcessorState) (msg : ClientMessageData)
    (sz : Nat) (nms nmono : Int) (oks : List Bool) :
    (((process_message st msg sz nms nmono oks).1.1 = false ∧
        (process_message st msg sz nms nmono oks).1.2.2 = 0) ↔
      (msg.protocol_version < MIN_PROTOCOL_VERSION ∨ msg.device_id = "")) ∧
    ((msg.protocol_version < MIN_PROTOCOL_VERSION ∨ msg.device_id = "") →
      (process_message st msg sz nms nmono oks).2.stats.hits_rejected =
        st.stats.hits_rejected + 1) ∧
    (¬(msg.protocol_version < MIN_PROTOCOL_VERSION ∨ msg.device_id = "") →
      (process_message st msg sz nms nmono oks).1.1 = true) := by
  unfold process_message
  by_cases h1 : msg.protocol_version < MIN_PROTOCOL_VERSION
  · simp [h1, ServerStats.record_rejected]
  by_cases h2 : msg.device_id = ""
  · simp [h1, h2, ServerStats.record_rejected]
  by_cases h3 : msg.heartbeat_timestamp_ms.isSome
  · simp [h1, h2, h3]
  rcases hh : msg.hit with _ | h
  · rcases hl : msg.hits with _ | ⟨x, xs⟩
    · simp [h1, h2, h3, hh, hl, collectHits, isBatchMsg]
    · simp [h1, h2, h3, hh, hl, collectHits, isBatchMsg]
  · simp [h1, h2, h3, hh, collectHits, isBatchMsg]

/-- Witness for C1: a message with protocol version 0 is rejected with
`stored_count = 0` and the rejected counter becomes 1. -/
theorem C1_validation_gate_witness :
    ((process_message (processorInit emptyStats) msgBadVersion 10 0 0 []).1.1 = false ∧
      (process_message (processorInit emptyStats) msgBadVersion 10 0 0 []).1.2.2 = 0) ∧
    (process_message (processorInit emptyStats) msgBadVersion 10 0 0 []).2.stats.hits_rejected
      = 1 := by
  have h := C1_validation_gate (processorInit emptyStats) msgBadVersion 10 0 0 []
  refine ⟨h.1.mpr (Or.inl (by decide)), ?_⟩
  have h2 := h.2.1 (Or.inl (by decide))
  simpa [processorInit, emptyStats] using h2

/-- C3: record ids are assigned starting at 1 by a process-lifetime counter;
over any sequence of processed messages the queued ids are strictly increasing
(hence assigned in enqueue-attempt order and never reused), and when every
enqueue attempt succeeds the queued ids are exactly `1, 2, …, N` with no gaps. -/
theorem C3_record_ids :
    (∀ stats0 : ServerStats, (processorInit stats0).nextRecordId = 1) ∧
    (∀ (stats0 : ServerStats) (inputs : List MessageInput),
      List.Chain' (· < ·) (queueIds (runMessages (processorInit stats0) inputs))) ∧
    (∀ (stats0 : ServerStats) (inputs : List MessageInput),
      (∀ i ∈ inputs, ∀ b ∈ i.oks, b = true) →
      queueIds (runMessages (processorInit stats0) inputs) =
        rangeInt 1 (runMessages (processorInit stats0) inputs).queue.length) := by
  refine ⟨fun _ => rfl, ?_, ?_⟩
  · intro stats0 inputs
    exact (runMessages_chain inputs (processorInit stats0) (by simp [queueIds, processorInit])
      (by simp [queueIds, processorInit])).1
  · intro stats0 inputs hoks
    exact (runMessages_exact inputs hoks (processorInit stats0)
      (by simp [queueIds, processorInit, rangeInt]) (by simp [processorInit])).1

/-- Witness for C3: a single hit then a successful batch of three yields
queued ids `[1, 2, 3, 4]` with no gaps. -/
theorem C3_record_ids_witness :
    queueIds (runMessages (processorInit emptyStats) inputsC3) =
      rangeInt 1 (runMessages (processorInit emptyStats) inputsC3).queue.length ∧
    queueIds (runMessages (processorInit emptyStats) inputsC3) = [1, 2, 3, 4] := by
  refine ⟨C3_record_ids.2.2 emptyStats inputsC3 (by decide), by decide⟩

/-- C4: for a validated message carrying hits, each failed queue put is caught
per record — the rejected counter absorbs exactly the failures, the remaining
hits of the batch are still attempted (the id counter advances once per hit),
and the call returns `accepted = true` with `stored_count` equal to the number
of hits actually enqueued. -/
theorem C4_per_record_enqueue_failure (st : ProcessorState) (msg : ClientMessageData)
    (sz : Nat) (nms nmono : Int) (oks : List Bool)
    (h1 : ¬msg.protocol_version < MIN_PROTOCOL_VERSION) (h2 : ¬msg.device_id = "")
    (h3 : msg.heartbeat_timestamp_ms = none) (h4 : collectHits msg ≠ []) :
    (process_message st msg sz nms nmono oks).1.1 = true ∧
    (process_message st msg sz nms nmono oks).2.queue.length =
      st.queue.length + (process_message st msg sz nms nmono oks).1.2.2 ∧
    (process_message st msg sz nms nmono oks).2.stats.hits_rejected +
        (process_message st msg sz nms nmono oks).1.2.2 =
      st.stats.hits_rejected + (collectHits msg).length ∧
    (process_message st msg sz nms nmono oks).2.nextRecordId =
      st.nextRecordId + (collectHits msg).length := by
  rw [process_message_hits_eq st msg sz nms nmono oks h1 h2 h3 h4]
  obtain ⟨newRecs, hq, hnext, hstored, hrej, _, _, _⟩ :=
    enqueueLoop_spec msg.protocol_version msg.device_id msg.app_version nms
      (collectHits msg) oks
      { st with stats :=
          if isBatchMsg msg then
            st.stats.record_batch msg.device_id (collectHits msg).length sz nmono
          else st.stats.record_hit msg.device_id sz false nmono } 0
  dsimp only at hq hnext hstored hrej ⊢
  have hs1 : (if isBatchMsg msg then
        st.stats.record_batch msg.device_id (collectHits msg).length sz nmono
      else st.stats.record_hit msg.device_id sz false nmono).hits_rejected =
      st.stats.hits_rejected := by
    split <;> rfl
  rw [hs1] at hrej
  refine ⟨rfl, ?_, ?_, hnext⟩
  · rw [hq, hstored, List.length_append]
    omega
  · have hupd : ∀ (s : ServerStats) (n : Nat),
        (s.update_queue_depth n).hits_rejected = s.hits_rejected := fun s n => rfl
    rw [hupd, hstored]
    omega

/-- Witness for C4: a batch of three with the middle put failing is accepted
with `stored_count = 2`, one rejection, and the id counter advanced by 3. -/
theorem C4_per_record_enqueue_failure_witness :
    (process_message (processorInit emptyStats) msgBatch3 9 100 0 [true, false, true]).1.1
      = true ∧
    (process_message (processorInit emptyStats) msgBatch3 9 100 0 [true, false, true]).1.2.2
      = 2 ∧
    (process_message (processorInit emptyStats) msgBatch3 9 100 0
      [true, false, true]).2.stats.hits_rejected = 1 ∧
    (process_message (processorInit emptyStats) msgBatch3 9 100 0
      [true, false, true]).2.nextRecordId = 4 := by
  have h := C4_per_record_enqueue_failure (processorInit emptyStats) msgBatch3 9 100 0
    [true, false, true] (by decide) (by decide) rfl (by decide)
  exact ⟨h.1, by decide, by decide, by decide⟩

/-- C5: the consumer loop processes every dequeued record of an arbitrary
finite trace — a failed store increments the storage-error counter and the
loop moves to the next record, a successful store increments the stored
counter and appends the record to the log; no failure stops the traversal. -/
theorem C5_consumer_loop_resilience (s : StorageState × ServerStats)
    (trace : List (ServerHitRecordData × Bool × Nat))
    (record : ServerHitRecordData) (ok : Bool) (q : Nat)
    (rest : List (ServerHitRecordData × Bool × Nat)) :
    (run_storage_consumer s ((record, ok, q) :: rest) =
      run_storage_consumer (consumeOne s record ok q) rest) ∧
    (consumeOne s record false q).2.storage_errors = s.2.storage_errors + 1 ∧
    (consumeOne s record true q).2.hits_stored = s.2.hits_stored + 1 ∧
    (run_storage_consumer s trace).2.storage_errors =
        s.2.storage_errors + (trace.filter (fun e => !e.2.1)).length ∧
    (run_storage_consumer s trace).2.hits_stored =
        s.2.hits_stored + (trace.filter (fun e => e.2.1)).length ∧
    (run_storage_consumer s trace).1.binpb =
        s.1.binpb ++ (trace.filter (fun e => e.2.1)).map
          (fun e => (hourKey e.1.server_timestamp_ms, e.1)) := by
  refine ⟨rfl, rfl, rfl, ?_⟩
  induction trace generalizing s with
  | nil => simp [run_storage_consumer]
  | cons e rest2 ih =>
      obtain ⟨r, ok2, q2⟩ := e
      cases ok2 with
      | false =>
          have h := ih (consumeOne s r false q2)
          simp only [run_storage_consumer] at h ⊢
          refine ⟨?_, ?_, ?_⟩
          · rw [h.1]
            simp [consumeOne, ServerStats.record_storage_error, List.filter]
            omega
          · rw [h.2.1]
            simp [consumeOne, ServerStats.record_storage_error, List.filter]
          · rw [h.2.2]
            simp [consumeOne, List.filter]
      | true =>
          have h := ih (consumeOne s r true q2)
          simp only [run_storage_consumer] at h ⊢
          refine ⟨?_, ?_, ?_⟩
          · rw [h.1]
            simp [consumeOne, ServerStats.record_stored, ServerStats.update_queue_depth,
              ServerStats.record_storage_error, List.filter]
          · rw [h.2.1]
            simp [consumeOne, ServerStats.record_stored, ServerStats.update_queue_depth,
              List.filter]
            omega
          · rw [h.2.2]
            simp [consumeOne, FileHitStorage.store, List.filter]

/-- C6 (amended): a validated heartbeat message returns `accepted = true` with
`stored_count = 0`, never touches the queue or the id counter, increments the
heartbeat counter, and updates the device's last-seen timestamp with no mode
change — but only when the device already has a `DeviceActivity` entry; a
heartbeat from an unknown device leaves the device map unchanged. -/
theorem C6_heartbeat_behavior (st : ProcessorState) (msg : ClientMessageData) (sz : Nat)
    (nms nmono : Int) (oks : List Bool) (t : Int)
    (h1 : ¬msg.protocol_version < MIN_PROTOCOL_VERSION) (h2 : msg.device_id ≠ "")
    (h3 : msg.heartbeat_timestamp_ms = some t) :
    (process_message st msg sz nms nmono oks).1 = (true, "", 0) ∧
    (process_message st msg sz nms nmono oks).2.queue = st.queue ∧
    (process_message st msg sz nms nmono oks).2.nextRecordId = st.nextRecordId ∧
    (process_message st msg sz nms nmono oks).2.stats.heartbeats_received =
      st.stats.heartbeats_received + 1 ∧
    (process_message st msg sz nms nmono oks).2.stats.hits_stored = st.stats.hits_stored ∧
    (getDevice st.stats.devices msg.device_id = none →
      (process_message st msg sz nms nmono oks).2.stats.devices = st.stats.devices) ∧
    (∀ d, getDevice st.stats.devices msg.device_id = some d →
      (process_message st msg sz nms nmono oks).2.stats.devices =
        setDevice st.stats.devices msg.device_id { d with last_seen := nmono }) := by
  unfold process_message
  simp only [h1, h3, if_false, ite_false, Option.isSome_some, if_true, ite_true]
  by_cases h2' : msg.device_id = ""
  · exact absurd h2' h2
  simp only [h2', if_false, ite_false, ite_true]
  refine ⟨trivial, trivial, trivial, ?_, ?_, ?_, ?_⟩
  · simp [ServerStats.record_heartbeat]
  · simp [ServerStats.record_heartbeat]
  · intro hnone
    simp [ServerStats.record_heartbeat, hnone]
  · intro d hd
    simp [ServerStats.record_heartbeat, hd]

/-- Witness for C6: a heartbeat from a device with an existing entry updates
only its last-seen timestamp (mode and hit count preserved). -/
theorem C6_heartbeat_behavior_witness :
    (process_message (processorInit statsWithDev) msgHeartbeatD 10 0 7 []).1 = (true, "", 0) ∧
    (process_message (processorInit statsWithDev) msgHeartbeatD 10 0 7 []).2.stats.devices =
      setDevice statsWithDev.devices "d"
        { last_seen := 7, reporting_mode := "realtime", hits_sent := 3 } := by
  have h := C6_heartbeat_behavior (processorInit statsWithDev) msgHeartbeatD 10 0 7 [] 5
    (by decide) (by decide) rfl
  exact ⟨h.1, h.2.2.2.2.2.2 { last_seen := 1, reporting_mode := "realtime", hits_sent := 3 } rfl⟩

/-- Counterexample for C6 as stated: the first-ever activity of device `"d"`
is a heartbeat, yet after processing it no `DeviceActivity` entry exists for
`"d"` — heartbeats do not create entries on first activity. -/
theorem C6_heartbeat_counterexample :
    (process_message (processorInit emptyStats) msgHeartbeatD 10 0 7 []).1 = (true, "", 0) ∧
    (process_message (processorInit emptyStats) msgHeartbeatD 10 0 7
      []).2.stats.heartbeats_received = 1 ∧
    getDevice (process_message (processorInit emptyStats) msgHeartbeatD 10 0 7
      []).2.stats.devices "d" = none := by
  decide

/-- C7: the confidence score is
`round₂(min(0.5·min(devices/3,1) + 0.3·min(hits/5,1) + 0.2·min(manual/2,1), 1))`;
3 devices, 5 hits, 2 manual reports give 1.0, and 1 device, 1 hit, 0 manual
reports give 0.23. -/
theorem C7_confidence_formula (c : PotholeCluster) :
    c.confidence =
      round2 (min ((1 / 2) * min ((c.devices.length : ℚ) / 3) 1 +
        (3 / 10) * min ((c.hit_count : ℚ) / 5) 1 +
        (1 / 5) * min ((c.manual_reports : ℚ) / 2) 1) 1) ∧
    (c.devices.length = 3 → c.hit_count = 5 → c.manual_reports = 2 → c.confidence = 1) ∧
    (c.devices.length = 1 → c.hit_count = 1 → c.manual_reports = 0 →
      c.confidence = 23 / 100) := by
  refine ⟨?_, ?_, ?_⟩
  · unfold PotholeCluster.confidence
    ring_nf
  · intro h1 h2 h3
    unfold PotholeCluster.confidence
    rw [h1, h2, h3]
    norm_num [round2]
  · intro h1 h2 h3
    unfold PotholeCluster.confidence
    rw [h1, h2, h3]
    norm_num [round2]
    rw [round_eq]
    norm_num

/-- Witness for C7: the fixture cluster with 3 devices, 5 hits and 2 manual
reports has confidence exactly 1. -/
theorem C7_confidence_formula_witness : clusterC7.confidence = 1 :=
  (C7_confidence_formula clusterC7).2.1 rfl rfl rfl

/-- C8 (code bug): `store` appends exactly one line to the secondary index
with the record id, the hit timestamp, the 8-character device prefix, severity
and speed — but the position it writes is the location microdegrees divided by
10^12, not the derived floating degrees (microdegrees / 10^6): the source
divides the already-derived `location.lat` property by 1,000,000 again.
Evaluated at `recordA` (latitude 45,000,000 µ°): the index line holds
45000000/10^12 = 0.000045 instead of 45.0. -/
theorem C8_jsonl_index_position :
    (∀ (s : StorageState) (record : ServerHitRecordData),
      (FileHitStorage.store s record).jsonl =
        s.jsonl ++ [(hourKey record.server_timestamp_ms,
          FileHitStorage.to_jsonl_entry record)]) ∧
    (∀ record : ServerHitRecordData,
      (FileHitStorage.to_jsonl_entry record).id = record.record_id ∧
      (FileHitStorage.to_jsonl_entry record).ts_ms = record.hit.timestamp_ms ∧
      (FileHitStorage.to_jsonl_entry record).device = record.device_id.take 8 ∧
      (FileHitStorage.to_jsonl_entry record).severity = record.hit.pattern.severity ∧
      (FileHitStorage.to_jsonl_entry record).speed = round1 record.hit.speed_mps ∧
      (FileHitStorage.to_jsonl_entry record).lat =
        (record.hit.location.lat_microdeg : ℚ) / 1000000000000) ∧
    (FileHitStorage.to_jsonl_entry recordA).lat = 45000000 / 1000000000000 ∧
    (FileHitStorage.to_jsonl_entry recordA).lat ≠
      (recordA.hit.location.lat_microdeg : ℚ) / 1000000 := by
  have hgen : ∀ record : ServerHitRecordData,
      (FileHitStorage.to_jsonl_entry record).lat =
        (record.hit.location.lat_microdeg : ℚ) / 1000000000000 := by
    intro record
    unfold FileHitStorage.to_jsonl_entry LocationData.lat
    dsimp only
    rw [div_div]
    norm_num
  refine ⟨fun s record => rfl, ?_, ?_, ?_⟩
  · intro record
    refine ⟨?_, ?_, ?_, ?_, ?_, hgen record⟩ <;>
      simp only [FileHitStorage.to_jsonl_entry]
  · rw [hgen recordA]
    have hval : recordA.hit.location.lat_microdeg = 45000000 := rfl
    rw [hval]
    norm_num
  · rw [hgen recordA]
    have hval : recordA.hit.location.lat_microdeg = 45000000 := rfl
    rw [hval]
    norm_num

/-- C9: the administrative delete removes exactly the records whose ids are in
the requested set, leaves all others untouched in order, and returns how many
were found; an empty or all-unknown id set yields 0 deleted without error. -/
theorem C9_delete_by_id (s : StorageState) (ids : List Int) :
    (deleteHitsEndpoint s ids).1.binpb =
        s.binpb.filter (fun r => r.2.record_id ∉ ids) ∧
    (deleteHitsEndpoint s ids).2 =
        (s.binpb.filter (fun r => r.2.record_id ∈ ids)).length ∧
    (ids = [] → deleteHitsEndpoint s ids = (s, 0)) ∧
    ((∀ r ∈ s.binpb, r.2.record_id ∉ ids) →
      (deleteHitsEndpoint s ids).2 = 0 ∧ (deleteHitsEndpoint s ids).1.binpb = s.binpb) := by
  have hcount : (deleteHitsEndpoint s ids).2 =
      (s.binpb.filter (fun r => r.2.record_id ∈ ids)).length := by
    unfold deleteHitsEndpoint FileHitStorage.delete_hits
    by_cases h : ids = []
    · simp [h]
    · simp only [h, if_false, ite_false]
      have hk := length_filter_add_length_filter_not s.binpb
        (fun r => decide (r.2.record_id ∈ ids))
      simp only [decide_not] at hk ⊢
      omega
  refine ⟨?_, hcount, ?_, ?_⟩
  · unfold deleteHitsEndpoint FileHitStorage.delete_hits
    by_cases h : ids = []
    · simp [h]
    · simp [h]
  · intro h
    simp [deleteHitsEndpoint, h]
  · intro h
    constructor
    · rw [hcount]
      have hnil : s.binpb.filter (fun r => r.2.record_id ∈ ids) = [] := by
        apply List.filter_eq_nil_iff.mpr
        intro r hr
        simpa using h r hr
      simp [hnil]
    · unfold deleteHitsEndpoint FileHitStorage.delete_hits
      by_cases hid : ids = []
      · simp [hid]
      · simp only [hid, if_false, ite_false]
        apply List.filter_eq_self.mpr
        intro r hr
        simpa using h r hr

/-- Witness for C9: deleting the empty id set from a two-record store returns
0 and leaves the store unchanged; deleting id 1 finds exactly one record. -/
theorem C9_delete_by_id_witness :
    deleteHitsEndpoint storage2 [] = (storage2, 0) ∧
    (deleteHitsEndpoint storage2 [1]).2 = 1 ∧
    (deleteHitsEndpoint storage2 [7]).2 = 0 := by
  refine ⟨(C9_delete_by_id storage2 []).2.2.1 rfl, ?_, ?_⟩
  · rw [(C9_delete_by_id storage2 [1]).2.1]
    decide
  · exact ((C9_delete_by_id storage2 [7]).2.2.2 (by decide)).1

/-- C10: after any sequence of `add_hit` calls on a fresh cluster, the
centroid is the arithmetic mean of the latitudes and longitudes of all hits
ever merged into the cluster. -/
theorem C10_centroid_mean (l : List AddCall) :
    (applyAdds emptyCluster l).lat = (l.map AddCall.lat).sum / (l.length : ℚ) ∧
    (applyAdds emptyCluster l).lon = (l.map AddCall.lon).sum / (l.length : ℚ) ∧
    (applyAdds emptyCluster l).hit_count = l.length := by
  have h := applyAdds_sums l emptyCluster
  rcases l with _ | ⟨a, rest⟩
  · simp [applyAdds, emptyCluster]
  · have hne : (a :: rest : List AddCall) ≠ [] := by simp
    obtain ⟨hlat, hlon⟩ := h.2.2.2 hne
    refine ⟨?_, ?_, ?_⟩
    · rw [hlat, h.1, h.2.2.1]
      simp [emptyCluster]
    · rw [hlon, h.2.1, h.2.2.1]
      simp [emptyCluster]
    · rw [h.2.2.1]
      simp [emptyCluster]

/-! Clustering analysis lemmas (for C2). -/

lemma scanBest_all_ge (lat lon : ℚ) : ∀ (cs : List PotholeCluster) (i0 : Nat)
    (b0 : Option Nat) (d0 : ℝ),
    (∀ c ∈ cs, ¬ hitDist lat lon c < d0) →
    scanBest lat lon cs i0 b0 d0 = (b0, d0) := by
  intro cs
  induction cs with
  | nil =>
      intro i0 b0 d0 _
      rfl
  | cons c rest ih =>
      intro i0 b0 d0 hall
      have hc : ¬ hitDist lat lon c < d0 := hall c (by simp)
      simp only [scanBest]
      rw [if_neg hc]
      exact ih (i0 + 1) b0 d0 (fun x hx => hall x (by simp [hx]))

lemma scanBest_found (lat lon : ℚ) : ∀ (cs : List PotholeCluster) (i0 : Nat)
    (b0 : Option Nat) (d0 : ℝ),
    (∃ c ∈ cs, hitDist lat lon c < d0) →
    ∃ j : Nat, ∃ hj : j < cs.length,
      scanBest lat lon cs i0 b0 d0 = (some (i0 + j), hitDist lat lon (cs.get ⟨j, hj⟩)) ∧
      hitDist lat lon (cs.get ⟨j, hj⟩) < d0 ∧
      (∀ k : Nat, ∀ hk : k < cs.length,
        hitDist lat lon (cs.get ⟨j, hj⟩) ≤ hitDist lat lon (cs.get ⟨k, hk⟩)) ∧
      (∀ k : Nat, ∀ hk : k < cs.length, k < j →
        hitDist lat lon (cs.get ⟨j, hj⟩) < hitDist lat lon (cs.get ⟨k, hk⟩)) := by
  intro cs
  induction cs with
  | nil =>
      intro i0 b0 d0 hex
      simp at hex
  | cons c rest ih =>
      intro i0 b0 d0 hex
      by_cases hc : hitDist lat lon c < d0
      · simp only [scanBest]
        rw [if_pos hc]
        by_cases hrest : ∃ x ∈ rest, hitDist lat lon x < hitDist lat lon c
        · obtain ⟨j, hj, heq, hlt, hmin, hfirst⟩ :=
            ih (i0 + 1) (some i0) (hitDist lat lon c) hrest
          refine ⟨j + 1, by simpa using Nat.succ_lt_succ hj, ?_, ?_, ?_, ?_⟩
          · rw [heq]
            have harith : i0 + (j + 1) = i0 + 1 + j := by omega
            rw [harith]
            rfl
          · calc hitDist lat lon ((c :: rest).get ⟨j + 1, by simpa using Nat.succ_lt_succ hj⟩)
                = hitDist lat lon (rest.get ⟨j, hj⟩) := rfl
              _ < hitDist lat lon c := hlt
              _ < d0 := hc
          · intro k hk
            cases k with
            | zero =>
                exact le_of_lt hlt
            | succ k =>
                exact hmin k (by simpa using hk)
          · intro k hk hkj
            cases k with
            | zero =>
                exact hlt
            | succ k =>
                exact hfirst k (by simpa using hk) (by omega)
        · push_neg at hrest
          have hscan := scanBest_all_ge lat lon rest (i0 + 1) (some i0) (hitDist lat lon c)
            (fun x hx => not_lt.mpr (hrest x hx))
          refine ⟨0, by simp, ?_, hc, ?_, ?_⟩
          · rw [hscan]
            simp
          · intro k hk
            cases k with
            | zero => exact le_refl _
            | succ k =>
                exact hrest (rest.get ⟨k, by simpa using hk⟩)
                  (List.get_mem rest k (by simpa using hk))
          · intro k hk hk0
            omega
      · simp only [scanBest]
        rw [if_neg hc]
        have hex2 : ∃ x ∈ rest, hitDist lat lon x < d0 := by
          rcases hex with ⟨x, hx, hxd⟩
          rcases List.mem_cons.mp hx with rfl | hx2
          · exact absurd hxd hc
          · exact ⟨x, hx2, hxd⟩
        obtain ⟨j, hj, heq, hlt, hmin, hfirst⟩ := ih (i0 + 1) b0 d0 hex2
        refine ⟨j + 1, by simpa using Nat.succ_lt_succ hj, ?_, hlt, ?_, ?_⟩
        · rw [heq]
          have harith : i0 + (j + 1) = i0 + 1 + j := by omega
          rw [harith]
          rfl
        · intro k hk
          cases k with
          | zero =>
              have : d0 ≤ hitDist lat lon c := not_lt.mp hc
              calc hitDist lat lon (rest.get ⟨j, hj⟩) ≤ d0 := le_of_lt hlt
                _ ≤ hitDist lat lon c := this
          | succ k =>
              exact hmin k (by simpa using hk)
        · intro k hk hkj
          cases k with
          | zero =>
              calc hitDist lat lon (rest.get ⟨j, hj⟩) < d0 := hlt
                _ ≤ hitDist lat lon c := not_lt.mp hc
          | succ k =>
              exact hfirst k (by simpa using hk) (by omega)

lemma clusterStep_sentinel (radius : ℝ) (cs : List PotholeCluster) (r : RawRecord)
    (hs : r.lat_microdeg = 0 ∧ r.lon_microdeg = 0) :
    clusterStep radius cs r = cs := by
  unfold clusterStep
  rw [if_pos hs]

lemma clusterStep_no_merge (cs : List PotholeCluster) (r : RawRecord)
    (hns : ¬(r.lat_microdeg = 0 ∧ r.lon_microdeg = 0))
    (hfar : ∀ c ∈ cs,
      ¬ hitDist ((r.lat_microdeg : ℚ) / 1000000) ((r.lon_microdeg : ℚ) / 1000000) c
        ≤ CLUSTER_RADIUS_M) :
    clusterStep CLUSTER_RADIUS_M cs r =
      cs ++ [emptyCluster.add_hit ((r.lat_microdeg : ℚ) / 1000000)
        ((r.lon_microdeg : ℚ) / 1000000) r.severity r.peak_vertical_mg
        r.timestamp_ms r.device_id r.source] := by
  unfold clusterStep
  rw [if_neg hns]
  dsimp only
  by_cases hex : ∃ c ∈ cs,
      hitDist ((r.lat_microdeg : ℚ) / 1000000) ((r.lon_microdeg : ℚ) / 1000000) c
        < CLUSTER_RADIUS_M + 1
  · obtain ⟨j, hj, heq, hlt, hmin, hfirst⟩ :=
      scanBest_found ((r.lat_microdeg : ℚ) / 1000000) ((r.lon_microdeg : ℚ) / 1000000)
        cs 0 none (CLUSTER_RADIUS_M + 1) hex
    rw [heq]
    dsimp only
    rw [if_neg (hfar (cs.get ⟨j, hj⟩) (List.get_mem cs j hj))]
  · have hscan := scanBest_all_ge ((r.lat_microdeg : ℚ) / 1000000)
      ((r.lon_microdeg : ℚ) / 1000000) cs 0 none (CLUSTER_RADIUS_M + 1)
      (fun c hc => by
        intro hlt
        exact hex ⟨c, hc, hlt⟩)
    rw [hscan]

lemma clusterStep_merge_nearest (cs : List PotholeCluster) (r : RawRecord)
    (hns : ¬(r.lat_microdeg = 0 ∧ r.lon_microdeg = 0))
    (hnear : ∃ c ∈ cs,
      hitDist ((r.lat_microdeg : ℚ) / 1000000) ((r.lon_microdeg : ℚ) / 1000000) c
        ≤ CLUSTER_RADIUS_M) :
    ∃ j : Nat, ∃ hj : j < cs.length,
      (∀ k : Nat, ∀ hk : k < cs.length,
        hitDist ((r.lat_microdeg : ℚ) / 1000000) ((r.lon_microdeg : ℚ) / 1000000)
          (cs.get ⟨j, hj⟩) ≤
        hitDist ((r.lat_microdeg : ℚ) / 1000000) ((r.lon_microdeg : ℚ) / 1000000)
          (cs.get ⟨k, hk⟩)) ∧
      (∀ k : Nat, ∀ hk : k < cs.length, k < j →
        hitDist ((r.lat_microdeg : ℚ) / 1000000) ((r.lon_microdeg : ℚ) / 1000000)
          (cs.get ⟨j, hj⟩) <
        hitDist ((r.lat_microdeg : ℚ) / 1000000) ((r.lon_microdeg : ℚ) / 1000000)
          (cs.get ⟨k, hk⟩)) ∧
      hitDist ((r.lat_microdeg : ℚ) / 1000000) ((r.lon_microdeg : ℚ) / 1000000)
          (cs.get ⟨j, hj⟩) ≤ CLUSTER_RADIUS_M ∧
      clusterStep CLUSTER_RADIUS_M cs r =
        cs.set j ((cs.get ⟨j, hj⟩).add_hit ((r.lat_microdeg : ℚ) / 1000000)
          ((r.lon_microdeg : ℚ) / 1000000) r.severity r.peak_vertical_mg
          r.timestamp_ms r.device_id r.source) := by
  have hex : ∃ c ∈ cs,
      hitDist ((r.lat_microdeg : ℚ) / 1000000) ((r.lon_microdeg : ℚ) / 1000000) c
        < CLUSTER_RADIUS_M + 1 := by
    obtain ⟨c, hc, hcd⟩ := hnear
    exact ⟨c, hc, lt_of_le_of_lt hcd (by norm_num)⟩
  obtain ⟨j, hj, heq, hlt, hmin, hfirst⟩ :=
    scanBest_found ((r.lat_microdeg : ℚ) / 1000000) ((r.lon_microdeg : ℚ) / 1000000)
      cs 0 none (CLUSTER_RADIUS_M + 1) hex
  have hdj : hitDist ((r.lat_microdeg : ℚ) / 1000000) ((r.lon_microdeg : ℚ) / 1000000)
      (cs.get ⟨j, hj⟩) ≤ CLUSTER_RADIUS_M := by
    obtain ⟨c, hc, hcd⟩ := hnear
    obtain ⟨⟨k, hk⟩, hck⟩ := List.mem_iff_get.mp hc
    calc hitDist _ _ (cs.get ⟨j, hj⟩) ≤ hitDist _ _ (cs.get ⟨k, hk⟩) := hmin k hk
      _ ≤ CLUSTER_RADIUS_M := by rw [hck]; exact hcd
  refine ⟨j, hj, hmin, hfirst, hdj, ?_⟩
  unfold clusterStep
  rw [if_neg hns]
  dsimp only
  rw [heq]
  dsimp only
  rw [if_pos hdj]
  rw [Nat.zero_add]
  rw [List.getD_eq_get cs emptyCluster hj]

lemma abs_sin_eq_sin_abs (x : ℝ) (hx : |x| ≤ Real.pi / 2) : |Real.sin x| = Real.sin |x| := by
  rcases le_or_lt 0 x with h | h
  · have hxpi : x ≤ Real.pi := by
      have hx2 : x ≤ Real.pi / 2 := by rwa [abs_of_nonneg h] at hx
      linarith [Real.pi_pos]
    rw [abs_of_nonneg h, abs_of_nonneg (Real.sin_nonneg_of_nonneg_of_le_pi h hxpi)]
  · rw [abs_of_neg h, Real.sin_neg]
    rw [abs_of_nonpos ?hs]
    case hs =>
      have hmx : -x ≤ Real.pi := by
        rw [abs_of_neg h] at hx
        linarith [Real.pi_pos]
      have : Real.sin (-x) ≥ 0 := Real.sin_nonneg_of_nonneg_of_le_pi (by linarith) hmx
      rw [Real.sin_neg] at this
      linarith

lemma haversine_meridian (lat1 lat2 lon : ℝ)
    (h1 : |(lat2 - lat1) * Real.pi / 180 / 2| ≤ Real.pi / 2) :
    haversine_m lat1 lon lat2 lon =
      2 * EARTH_R * |(lat2 - lat1) * Real.pi / 180 / 2| := by
  unfold haversine_m
  dsimp only
  have hdlon : (lon - lon) * Real.pi / 180 = 0 := by
    rw [sub_self, zero_mul, zero_div]
  rw [hdlon]
  rw [show (0 : ℝ) / 2 = 0 by norm_num, Real.sin_zero]
  rw [show (0 : ℝ) ^ 2 = 0 by norm_num, mul_zero, add_zero]
  rw [Real.sqrt_sq_eq_abs]
  rw [abs_sin_eq_sin_abs _ h1]
  rw [Real.arcsin_sin (by
      have := abs_nonneg ((lat2 - lat1) * Real.pi / 180 / 2)
      linarith [Real.pi_pos]) h1]

lemma c1A_lat : c1A.lat = 1 := by
  unfold c1A PotholeCluster.add_hit emptyCluster
  norm_num

lemma c1A_lon : c1A.lon = 0 := by
  unfold c1A PotholeCluster.add_hit emptyCluster
  norm_num

lemma dist_B10 :
    hitDist ((recB10.lat_microdeg : ℚ) / 1000000) ((recB10.lon_microdeg : ℚ) / 1000000) c1A =
      2 * EARTH_R * (Real.pi / 4000000) := by
  unfold hitDist
  rw [c1A_lat, c1A_lon]
  rw [show recB10.lat_microdeg = (1000090 : Int) from rfl,
    show recB10.lon_microdeg = (0 : Int) from rfl]
  push_cast
  rw [show ((0 : ℝ) / 1000000) = 0 from by norm_num]
  have hdel : ((1 : ℝ) - 1000090 / 1000000) * Real.pi / 180 / 2 = -(Real.pi / 4000000) := by
    field_simp
    ring
  rw [haversine_meridian (1000090 / 1000000) 1 0 (by
    rw [hdel, abs_neg, abs_of_nonneg (by positivity)]
    linarith [Real.pi_pos])]
  rw [hdel, abs_neg, abs_of_nonneg (by positivity)]

lemma dist_B20 :
    hitDist ((recB20.lat_microdeg : ℚ) / 1000000) ((recB20.lon_microdeg : ℚ) / 1000000) c1A =
      2 * EARTH_R * (Real.pi / 2000000) := by
  unfold hitDist
  rw [c1A_lat, c1A_lon]
  rw [show recB20.lat_microdeg = (1000180 : Int) from rfl,
    show recB20.lon_microdeg = (0 : Int) from rfl]
  push_cast
  rw [show ((0 : ℝ) / 1000000) = 0 from by norm_num]
  have hdel : ((1 : ℝ) - 1000180 / 1000000) * Real.pi / 180 / 2 = -(Real.pi / 2000000) := by
    field_simp
    ring
  rw [haversine_meridian (1000180 / 1000000) 1 0 (by
    rw [hdel, abs_neg, abs_of_nonneg (by positivity)]
    linarith [Real.pi_pos])]
  rw [hdel, abs_neg, abs_of_nonneg (by positivity)]

lemma step_recA : clusterStep CLUSTER_RADIUS_M [] recA = [c1A] := by
  rw [clusterStep_no_merge [] recA (by decide) (fun c hc => absurd hc (List.not_mem_nil c))]
  rfl

lemma pair10_one_cluster : (cluster_hits [recA, recB10]).length = 1 := by
  have hnear : ∃ c ∈ [c1A],
      hitDist ((recB10.lat_microdeg : ℚ) / 1000000) ((recB10.lon_microdeg : ℚ) / 1000000) c
        ≤ CLUSTER_RADIUS_M := by
    refine ⟨c1A, by simp, ?_⟩
    rw [dist_B10]
    unfold EARTH_R CLUSTER_RADIUS_M
    nlinarith [Real.pi_lt_d2, Real.pi_pos]
  obtain ⟨j, hj, _, _, _, heq⟩ := clusterStep_merge_nearest [c1A] recB10 (by decide) hnear
  show (clusterStep CLUSTER_RADIUS_M (clusterStep CLUSTER_RADIUS_M [] recA) recB10).length = 1
  rw [step_recA, heq]
  simp

lemma pair20_two_clusters : (cluster_hits [recA, recB20]).length = 2 := by
  have hfar : ∀ c ∈ [c1A],
      ¬ hitDist ((recB20.lat_microdeg : ℚ) / 1000000) ((recB20.lon_microdeg : ℚ) / 1000000) c
        ≤ CLUSTER_RADIUS_M := by
    intro c hc
    simp only [List.mem_singleton] at hc
    subst hc
    rw [dist_B20]
    unfold EARTH_R CLUSTER_RADIUS_M
    intro hle
    nlinarith [Real.pi_gt_three]
  have heq := clusterStep_no_merge [c1A] recB20 (by decide) hfar
  show (clusterStep CLUSTER_RADIUS_M (clusterStep CLUSTER_RADIUS_M [] recA) recB20).length = 2
  rw [step_recA, heq]
  simp

/-- C2: `cluster_hits` processes records in storage read order: the zero/zero
sentinel is skipped; a non-sentinel hit farther than the 15 m radius from
every existing centroid starts a new singleton cluster; otherwise it is merged
into the existing cluster whose centroid is nearest by Haversine great-circle
distance (Earth radius 6,371,000 m, first-created cluster on ties); two hits
10 m apart form one cluster, two hits 20 m apart form two clusters. -/
theorem C2_greedy_nearest_clustering :
    (∀ (radius : ℝ) (cs : List PotholeCluster) (r : RawRecord),
      r.lat_microdeg = 0 ∧ r.lon_microdeg = 0 → clusterStep radius cs r = cs) ∧
    (∀ raw_hits : List RawRecord,
      cluster_hits raw_hits = List.foldl (clusterStep CLUSTER_RADIUS_M) [] raw_hits) ∧
    (∀ (cs : List PotholeCluster) (r : RawRecord),
      ¬(r.lat_microdeg = 0 ∧ r.lon_microdeg = 0) →
      (∀ c ∈ cs,
        ¬ hitDist ((r.lat_microdeg : ℚ) / 1000000) ((r.lon_microdeg : ℚ) / 1000000) c
          ≤ CLUSTER_RADIUS_M) →
      clusterStep CLUSTER_RADIUS_M cs r =
        cs ++ [emptyCluster.add_hit ((r.lat_microdeg : ℚ) / 1000000)
          ((r.lon_microdeg : ℚ) / 1000000) r.severity r.peak_vertical_mg
          r.timestamp_ms r.device_id r.source]) ∧
    (∀ (cs : List PotholeCluster) (r : RawRecord),
      ¬(r.lat_microdeg = 0 ∧ r.lon_microdeg = 0) →
      (∃ c ∈ cs,
        hitDist ((r.lat_microdeg : ℚ) / 1000000) ((r.lon_microdeg : ℚ) / 1000000) c
          ≤ CLUSTER_RADIUS_M) →
      ∃ j : Nat, ∃ hj : j < cs.length,
        (∀ k : Nat, ∀ hk : k < cs.length,
          hitDist ((r.lat_microdeg : ℚ) / 1000000) ((r.lon_microdeg : ℚ) / 1000000)
            (cs.get ⟨j, hj⟩) ≤
          hitDist ((r.lat_microdeg : ℚ) / 1000000) ((r.lon_microdeg : ℚ) / 1000000)
            (cs.get ⟨k, hk⟩)) ∧
        (∀ k : Nat, ∀ hk : k < cs.length, k < j →
          hitDist ((r.lat_microdeg : ℚ) / 1000000) ((r.lon_microdeg : ℚ) / 1000000)
            (cs.get ⟨j, hj⟩) <
          hitDist ((r.lat_microdeg : ℚ) / 1000000) ((r.lon_microdeg : ℚ) / 1000000)
            (cs.get ⟨k, hk⟩)) ∧
        hitDist ((r.lat_microdeg : ℚ) / 1000000) ((r.lon_microdeg : ℚ) / 1000000)
            (cs.get ⟨j, hj⟩) ≤ CLUSTER_RADIUS_M ∧
        clusterStep CLUSTER_RADIUS_M cs r =
          cs.set j ((cs.get ⟨j, hj⟩).add_hit ((r.lat_microdeg : ℚ) / 1000000)
            ((r.lon_microdeg : ℚ) / 1000000) r.severity r.peak_vertical_mg
            r.timestamp_ms r.device_id r.source)) ∧
    (cluster_hits [recA, recB10]).length = 1 ∧
    (cluster_hits [recA, recB20]).length = 2 :=
  ⟨clusterStep_sentinel, fun _ => rfl, clusterStep_no_merge, clusterStep_merge_nearest,
   pair10_one_cluster, pair20_two_clusters⟩

/-- Witness for C2: a sentinel record is skipped, and the first non-sentinel
record creates the singleton cluster `c1A`. -/
theorem C2_greedy_nearest_clustering_witness :
    clusterStep CLUSTER_RADIUS_M [] recSentinel = [] ∧
    clusterStep CLUSTER_RADIUS_M [] recA = [c1A] := by
  refine ⟨C2_greedy_nearest_clustering.1 CLUSTER_RADIUS_M [] recSentinel ⟨rfl, rfl⟩, ?_⟩
  rw [C2_greedy_nearest_clustering.2.2.1 [] recA (by decide)
    (fun c hc => absurd hc (List.not_mem_nil c))]
  rfl

end NidsDePoule
